import Mathlib

/-!
Shallow embedding of `src/model/aimlapi.go` (package `model`, provider
`AIMLAPIModelProvider`) and verification of its specification.

Modelling conventions:
* Go `int` token counts become `Int` (the code computes a possibly negative
  difference `contextLength - tokenCount`).
* Monetary amounts become `ℚ`; the spec (§4.3) requires the price summation
  to be exact and deterministic, so exact rationals are the faithful carrier.
* External collaborators (`GetTokenSize`, `getContextLength`,
  `getDefaultModelResult`, `aimlapi.DefaultConfig`, the chat-stream
  transport) are parameters of an `Env` record: `QueryText` is a function of
  the environment, mirroring how the Go code calls out to them.
* Side effects (issuing the stream request, writing bytes to the sink,
  flushing, closing the stream) are reified as a trace of `Effect`s returned
  alongside the outcome.  Sink writes are modelled as always succeeding.
* A response stream is modelled as the list of fragments delivered before the
  terminal `Recv` result, paired with `Option String`: `none` is `io.EOF`
  (normal termination), `some e` is a mid-stream receive error.
* `strings.Count(data, "\n") == len(data)` compares the number of newline
  bytes with the byte length; since `'\n'` is a one-byte rune, the equality
  holds exactly when every character of the string is `'\n'`, which is also
  when the character-level count equals the character-level length, so the
  character-based embedding below is faithful.
-/

/-- Usage/accounting record (`ModelResult` in the Go code base). -/
structure ModelResult where
  promptTokenCount : Int
  responseTokenCount : Int
  totalTokenCount : Int
  totalPrice : ℚ
  currency : String
deriving DecidableEq

/-- One role-tagged chat message (`aimlapi.ChatCompletionMessage`). -/
structure ChatCompletionMessage where
  role : String
  content : String
deriving DecidableEq

/-- The live chat request (`aimlapi.ChatCompletionRequest`), with the fields
`QueryText` sets.  Sampling parameters are carried through verbatim and
modelled as exact rationals. -/
structure ChatCompletionRequest where
  model : String
  messages : List ChatCompletionMessage
  stream : Bool
  temperature : ℚ
  topP : ℚ
  maxTokens : Int
deriving DecidableEq

/-- The provider's per-instance configuration (`AIMLAPIModelProvider`). -/
structure AIMLAPIModelProvider where
  subType : String
  secretKey : String
  siteName : String
  siteUrl : String
  temperature : ℚ
  topP : ℚ
deriving DecidableEq

/-- A history / knowledge message (`RawMessage`); `QueryText` never reads its
fields. -/
structure RawMessage where
  text : String
  author : String
deriving DecidableEq

/-- Agent metadata (`AgentInfo`); `QueryText` never reads its fields. -/
structure AgentInfo where
  info : String
deriving DecidableEq

/-- Observable side effects of a `QueryText` call, in order. -/
inductive Effect where
  | streamRequest (req : ChatCompletionRequest)
  | write (bytes : String)
  | flush
  | closeStream
deriving DecidableEq

/-- How a call terminates: a Go `panic`, an error return, or a result. -/
inductive Outcome where
  | panicked (e : String)
  | error (e : String)
  | ok (r : ModelResult)
deriving DecidableEq

/-- External collaborators consumed by the file, as an explicit environment:
`GetTokenSize`, `getContextLength`, `getDefaultModelResult`,
`aimlapi.DefaultConfig` (its error side only: `some e` means the constructor
returned error `e`), and the chat-stream transport. -/
structure Env where
  getTokenSize : String → String → Except String Int
  getContextLength : String → Int
  getDefaultModelResult : String → String → String → Except String ModelResult
  defaultConfig : String → String → String → Option String
  createStream : ChatCompletionRequest → Except String (List String × Option String)

/-- Modelled from the spec: the generic per-component price helper `getPrice`
is not under `src/`; §4.3 prescribes `tokenCount/1000 * pricePerThousand`,
computed exactly. -/
def getPrice (tokenCount : Int) (pricePerThousandTokens : ℚ) : ℚ :=
  (tokenCount : ℚ) / 1000 * pricePerThousandTokens

/-- Modelled from the spec: the generic price-summation helper `AddPrices` is
not under `src/`; §4.3 prescribes an exact, deterministic sum. -/
def AddPrices (price1 price2 : ℚ) : ℚ :=
  price1 + price2

/-- The static model → (input price, output price) table of `calculatePrice`,
per thousand tokens, transcribed entry by entry from the Go map literal. -/
def priceTable : List (String × ℚ × ℚ) :=
  [ ("openai/gpt-4o", (0.005, 0.015))
  , ("gpt-4o-2024-05-13", (0.005, 0.015))
  , ("gpt-4o-mini", (0.003, 0.006))
  , ("gpt-3.5-turbo", (0.001, 0.002))
  , ("claude-3-5-sonnet-20240620", (0.003, 0.015))
  , ("claude-3-haiku-20240307", (0.0008, 0.0024))
  , ("google/gemini-2.5-pro", (0.0025, 0.0075))
  , ("google/gemma-3-4b-it", (0.0004, 0.0008))
  , ("meta-llama/Meta-Llama-3.1-8B-Instruct-Turbo", (0.0002, 0.0006))
  , ("meta-llama/Llama-3-8b-chat-hf", (0.0002, 0.0006))
  , ("deepseek-chat", (0.0006, 0.0012))
  , ("deepseek-reasoner", (0.0015, 0.0030))
  ]

/-- `calculatePrice`: looks the provider's `subType` up in the price table
(unknown model ⇒ both prices 0), prices both sides, sums them, and sets the
currency to `"USD"`.  The Go function's error return is always `nil`, so the
embedding returns the updated record directly. -/
def calculatePrice (subType : String) (modelResult : ModelResult) : ModelResult :=
  let prices :=
    match priceTable.lookup subType with
    | some priceItem => priceItem
    | none => ((0 : ℚ), (0 : ℚ))
  let inputPrice := getPrice modelResult.promptTokenCount prices.1
  let outputPrice := getPrice modelResult.responseTokenCount prices.2
  { modelResult with totalPrice := AddPrices inputPrice outputPrice, currency := "USD" }

/-- Number of newline characters of a character list. -/
def countNL : List Char → Nat
  | [] => 0
  | c :: rest => (if c = '\n' then 1 else 0) + countNL rest

/-- `strings.Count(data, "\n")`: the number of newline characters of `data`
(see the header note on byte/character agreement). -/
def stringsCountNL (s : String) : Nat :=
  countNL s.data

/-- The model-resolution step of `QueryText`: an empty configured model
identifier is replaced by the fixed default `"openai/gpt-4o"`. -/
def resolveModel (subType : String) : String :=
  if subType = "" then "openai/gpt-4o" else subType

/-- The server-push event framing written for one forwarded fragment. -/
def frameEvent (data : String) : String :=
  "event: message\ndata: " ++ data ++ "\n\n"

/-- The error message of the exceeds-context failure, carrying the prompt
token count, the resolved model name and the context length
(`fmt.Errorf("Token count [%d] exceeds model [%s] max context [%d]", ...)`). -/
def exceedsContextMsg (tokenCount : Int) (model : String) (contextLength : Int) : String :=
  "Token count [" ++ toString tokenCount ++ "] exceeds model [" ++ model ++
    "] max context [" ++ toString contextLength ++ "]"

/-- The receive loop of `QueryText` over the delivered fragments, carrying the
`isLeadingReturn` flag.  Returns the effect trace (a write of the framed event
followed by a flush, per forwarded fragment) and the accumulated answer text
(`responseStringBuilder`). -/
def streamLoop : List String → Bool → List Effect × String
  | [], _ => ([], "")
  | data :: rest, isLeadingReturn =>
    if isLeadingReturn ∧ data.length ≠ 0 then
      if stringsCountNL data = data.length then
        streamLoop rest isLeadingReturn
      else
        let next := streamLoop rest false
        (Effect.write (frameEvent data) :: Effect.flush :: next.1, data ++ next.2)
    else
      let next := streamLoop rest isLeadingReturn
      (Effect.write (frameEvent data) :: Effect.flush :: next.1, data ++ next.2)

/-- The fragments the receive loop forwards (projection of `streamLoop`):
same branch structure, recording the forwarded `data` values. -/
def relay : List String → Bool → List String
  | [], _ => []
  | data :: rest, isLeadingReturn =>
    if isLeadingReturn ∧ data.length ≠ 0 then
      if stringsCountNL data = data.length then
        relay rest isLeadingReturn
      else
        data :: relay rest false
    else
      data :: relay rest isLeadingReturn

/-- The live chat request `QueryText` builds: the provider's raw `subType` as
model, a fixed system preamble plus the user question, `Stream: false`, the
provider's sampling parameters, and the computed output bound. -/
def mkLiveRequest (subType question : String) (temperature topP : ℚ) (maxTokens : Int) :
    ChatCompletionRequest :=
  { model := subType
  , messages :=
      [ { role := "system", content := "You are a helpful assistant." }
      , { role := "user", content := question } ]
  , stream := false
  , temperature := temperature
  , topP := topP
  , maxTokens := maxTokens }

/-- The dry-run sentinel checked with `strings.HasPrefix`. -/
def dryRunSentinel : String :=
  "$CasibaseDryRun$"

/-- `leadingMatch pat s` holds when `pat` is a leading part of `s`
(character-level embedding of `strings.HasPrefix(s, pat)`). -/
def leadingMatch : List Char → List Char → Bool
  | [], _ => true
  | _ :: _, [] => false
  | p :: ps, c :: cs => p = c && leadingMatch ps cs

/-- `strings.HasPrefix(question, "$CasibaseDryRun$")`. -/
def startsWithSentinel (question : String) : Bool :=
  leadingMatch dryRunSentinel.data question.data

/-- Concatenation of a list of fragments in arrival order (the value the
`strings.Builder` accumulates). -/
def concatAll : List String → String
  | [] => ""
  | s :: rest => s ++ concatAll rest

/-- The tail of `QueryText` once the stream is open: run the receive loop over
the delivered fragments, then — on a mid-stream receive error — return it, or
— on a normal end of stream — build the default result on the accumulated
answer and price it.  The deferred `respStream.Close()` makes the close the
final effect on every path. -/
def finishStream (env : Env) (subType question : String)
    (req : ChatCompletionRequest) (frags : List String) (terminal : Option String) :
    List Effect × Outcome :=
  let loop := streamLoop frags true
  match terminal with
  | some e =>
    (Effect.streamRequest req :: loop.1 ++ [Effect.closeStream], Outcome.error e)
  | none =>
    match env.getDefaultModelResult subType question loop.2 with
    | Except.error e =>
      (Effect.streamRequest req :: loop.1 ++ [Effect.closeStream], Outcome.error e)
    | Except.ok modelResult =>
      (Effect.streamRequest req :: loop.1 ++ [Effect.closeStream],
        Outcome.ok (calculatePrice subType modelResult))

/-- Shallow embedding of `QueryText`.  `writerIsFlusher` records whether the
caller's writer implements `http.Flusher`; `history`, `prompt`,
`knowledgeMessages` and `agentInfo` mirror the Go signature.  Returns the
effect trace and the outcome. -/
def QueryText (env : Env) (p : AIMLAPIModelProvider) (question : String)
    (writerIsFlusher : Bool) (history : List RawMessage) (prompt : String)
    (knowledgeMessages : List RawMessage) (agentInfo : AgentInfo) :
    List Effect × Outcome :=
  match env.defaultConfig p.secretKey p.siteName p.siteUrl with
  | some e => ([], Outcome.panicked e)
  | none =>
    if writerIsFlusher then
      let model := resolveModel p.subType
      match env.getTokenSize model question with
      | Except.error e => ([], Outcome.error e)
      | Except.ok tokenCount =>
        let contextLength := env.getContextLength p.subType
        if startsWithSentinel question then
          match env.getDefaultModelResult model question "" with
          | Except.error _ => ([], Outcome.error "cannot calculate tokens")
          | Except.ok modelResult =>
            if contextLength > modelResult.totalTokenCount then
              ([], Outcome.ok modelResult)
            else
              ([], Outcome.error "exceeds max tokens")
        else
          let maxTokens := contextLength - tokenCount
          if maxTokens < 0 then
            ([], Outcome.error (exceedsContextMsg tokenCount model contextLength))
          else
            let req := mkLiveRequest p.subType question p.temperature p.topP maxTokens
            match env.createStream req with
            | Except.error e => ([Effect.streamRequest req], Outcome.error e)
            | Except.ok (frags, terminal) =>
              finishStream env p.subType question req frags terminal
    else
      ([], Outcome.error "writer does not implement http.Flusher")

/-- The effect trace of the receive loop is one framed write followed by one
flush per forwarded fragment, and the accumulated answer is the concatenation
of the forwarded fragments in arrival order. -/
theorem streamLoop_eq_relay (frags : List String) (b : Bool) :
    streamLoop frags b =
      ((relay frags b).flatMap (fun d => [Effect.write (frameEvent d), Effect.flush]),
        concatAll (relay frags b)) := by
  induction frags generalizing b with
  | nil => simp [streamLoop, relay, concatAll]
  | cons data rest ih =>
    simp only [streamLoop, relay]
    split
    · split
      · exact ih b
      · simp [ih false, concatAll]
    · simp [ih b, concatAll]

/-- Once leading mode has ended, every fragment is forwarded verbatim. -/
theorem relay_false (l : List String) : relay l false = l := by
  induction l with
  | nil => simp [relay]
  | cons data rest ih => simp [relay, ih]

/-- The effect trace after a successfully opened stream is the request, one
framed write plus one flush per forwarded fragment in order, then the close —
however the call terminates. -/
theorem finishStream_trace (env : Env) (subType question : String)
    (req : ChatCompletionRequest) (frags : List String) (terminal : Option String) :
    (finishStream env subType question req frags terminal).1 =
      Effect.streamRequest req ::
        ((relay frags true).flatMap (fun d =>
          [Effect.write (frameEvent d), Effect.flush]) ++ [Effect.closeStream]) := by
  cases terminal with
  | some e => simp [finishStream, streamLoop_eq_relay]
  | none =>
    simp only [finishStream, streamLoop_eq_relay]
    cases env.getDefaultModelResult subType question (concatAll (relay frags true)) <;> simp


/-- The newline count of a character list never exceeds its length. -/
theorem countNL_le_length (l : List Char) : countNL l ≤ l.length := by
  induction l with
  | nil => simp [countNL]
  | cons a l ih =>
    by_cases ha : a = '\n' <;> simp [countNL, ha] <;> omega

/-- A list containing a non-newline character fails the all-newline test. -/
theorem countNL_ne_of_mem_ne (l : List Char) (c : Char) (hc : c ∈ l) (hne : c ≠ '\n') :
    countNL l ≠ l.length := by
  induction l with
  | nil => simp at hc
  | cons a l ih =>
    rcases List.mem_cons.mp hc with rfl | hmem
    · have hle := countNL_le_length l
      simp only [countNL, List.length_cons, if_neg hne]
      omega
    · by_cases ha : a = '\n'
      · have hne' := ih hmem
        simp only [countNL, List.length_cons, if_pos ha]
        omega
      · have hle := countNL_le_length l
        simp only [countNL, List.length_cons, if_neg ha]
        omega

/-- A string containing a non-newline character fails the
`strings.Count(data, "\n") == len(data)` test of the receive loop. -/
theorem newline_test_false_of_content (d : String) (c : Char) (hc : c ∈ d.data)
    (hne : c ≠ '\n') : ¬ stringsCountNL d = d.length := by
  show ¬ countNL d.data = d.length
  rw [← String.length_data]
  exact countNL_ne_of_mem_ne d.data c hc hne

/-- A string containing a character is non-empty. -/
theorem length_ne_zero_of_mem (d : String) (c : Char) (hc : c ∈ d.data) : d.length ≠ 0 := by
  rw [← String.length_data]
  intro h
  cases hdata : d.data with
  | nil => rw [hdata] at hc; simp at hc
  | cons a l => rw [hdata] at h; simp at h

/-- C2 counterexample: an empty fragment received in leading mode does NOT end
leading mode — it is itself forwarded, and a later all-newline fragment is
still suppressed; in particular `["", "x"]` forwards `["", "x"]`, not `["x"]`. -/
theorem relay_empty_fragment_cex :
    relay ["", "x"] true ≠ ["x"] ∧ relay ["", "\n", "x"] true = ["", "x"] := by
  decide

/-- C2 (amended): an empty fragment received while leading mode is active is
forwarded verbatim (as an empty write) and leading mode stays active, so later
all-newline fragments are still suppressed; a stream emitting `["", "x"]`
forwards `["", "x"]`. -/
theorem relay_empty_fragment_keeps_leading (rest : List String) :
    relay ("" :: rest) true = "" :: relay rest true ∧
    relay ["", "x"] true = ["", "x"] := by
  constructor
  · simp [relay]
  · decide

/-- C3: a maximal leading run of non-empty all-newline fragments is discarded;
from the first fragment containing a non-newline character on, every fragment
is forwarded in arrival order, and the accumulated answer is the concatenation
of the forwarded fragments. -/
theorem relay_leading_newline_suppression (ws : List String) (d : String)
    (rest : List String)
    (hws : ∀ w ∈ ws, stringsCountNL w = w.length ∧ w.length ≠ 0)
    (hd : ∃ c ∈ d.data, c ≠ '\n') :
    relay (ws ++ d :: rest) true = d :: rest ∧
    (streamLoop (ws ++ d :: rest) true).2 = concatAll (d :: rest) := by
  obtain ⟨c, hc, hne⟩ := hd
  have hmain : relay (ws ++ d :: rest) true = d :: rest := by
    induction ws with
    | nil =>
      have hcount := newline_test_false_of_content d c hc hne
      have hlen := length_ne_zero_of_mem d c hc
      simp only [List.nil_append, relay]
      rw [if_pos ⟨trivial, hlen⟩, if_neg hcount, relay_false]
    | cons w ws ih =>
      obtain ⟨hwcount, hwlen⟩ := hws w (List.mem_cons_self w ws)
      have ih' := ih (fun u hu => hws u (List.mem_cons_of_mem w hu))
      simp only [List.cons_append, relay]
      rw [if_pos ⟨trivial, hwlen⟩, if_pos hwcount]
      exact ih'
  refine ⟨hmain, ?_⟩
  rw [streamLoop_eq_relay, hmain]

/-- C3 witness: the stream `["\n", "\n\n", "Hi", "\nthere"]` forwards exactly
`["Hi", "\nthere"]` and accumulates their concatenation `"Hi\nthere"`. -/
theorem relay_leading_newline_suppression_witness :
    relay (["\n", "\n\n"] ++ "Hi" :: ["\nthere"]) true = "Hi" :: ["\nthere"] ∧
    (streamLoop (["\n", "\n\n"] ++ "Hi" :: ["\nthere"]) true).2 =
      concatAll ("Hi" :: ["\nthere"]) :=
  relay_leading_newline_suppression ["\n", "\n\n"] "Hi" ["\nthere"]
    (by decide) (by decide)

/-- C6: for models present in the price table the total cost is
`promptTokens/1000 * inputPrice + responseTokens/1000 * outputPrice`; for
absent models it is 0; in both cases the currency is `"USD"`. -/
theorem calculatePrice_cost_and_currency (subType : String) (r : ModelResult) :
    (calculatePrice subType r).currency = "USD" ∧
    (∀ pIn pOut, priceTable.lookup subType = some (pIn, pOut) →
      (calculatePrice subType r).totalPrice =
        (r.promptTokenCount : ℚ) / 1000 * pIn + (r.responseTokenCount : ℚ) / 1000 * pOut) ∧
    (priceTable.lookup subType = none → (calculatePrice subType r).totalPrice = 0) := by
  refine ⟨?_, ?_, ?_⟩
  · simp [calculatePrice]
  · intro pIn pOut h
    simp [calculatePrice, h, getPrice, AddPrices]
  · intro h
    simp [calculatePrice, h, getPrice, AddPrices]

/-- A concrete usage record used to evaluate the pricing claim. -/
def sampleResult : ModelResult :=
  { promptTokenCount := 1000
  , responseTokenCount := 2000
  , totalTokenCount := 3000
  , totalPrice := 0
  , currency := "" }

/-- C6 witness: a model in the table (`gpt-4o-mini`, 0.003/0.006 per thousand)
and a model absent from it, evaluated on `sampleResult`. -/
theorem calculatePrice_cost_and_currency_witness :
    (calculatePrice "gpt-4o-mini" sampleResult).totalPrice =
      (sampleResult.promptTokenCount : ℚ) / 1000 * 0.003 +
        (sampleResult.responseTokenCount : ℚ) / 1000 * 0.006 ∧
    (calculatePrice "unknown-model" sampleResult).totalPrice = 0 :=
  ⟨(calculatePrice_cost_and_currency "gpt-4o-mini" sampleResult).2.1 0.003 0.006 rfl,
   (calculatePrice_cost_and_currency "unknown-model" sampleResult).2.2 rfl⟩

/-- C10: if the chat-client configuration constructor reports an error, the
call panics (the Go `getClient` runs `panic(err)`) instead of returning an
error value to the caller. -/
theorem queryText_config_error_panics (env : Env) (p : AIMLAPIModelProvider)
    (question : String) (w : Bool) (history : List RawMessage) (prompt : String)
    (km : List RawMessage) (ai : AgentInfo) (e : String)
    (hcfg : env.defaultConfig p.secretKey p.siteName p.siteUrl = some e) :
    QueryText env p question w history prompt km ai = ([], Outcome.panicked e) := by
  simp only [QueryText, hcfg]

/-- An environment whose configuration constructor fails. -/
def envConfigErr : Env :=
  { getTokenSize := fun _ _ => Except.ok 0
  , getContextLength := fun _ => 0
  , getDefaultModelResult := fun _ _ _ => Except.error "no result"
  , defaultConfig := fun _ _ _ => some "boom"
  , createStream := fun _ => Except.error "no stream" }

/-- A concrete provider configuration used by the witnesses. -/
def sampleProvider : AIMLAPIModelProvider :=
  { subType := "gpt-4o-mini"
  , secretKey := "k"
  , siteName := "Casibase"
  , siteUrl := "https://casibase.org"
  , temperature := 1
  , topP := 1 }

/-- C10 witness: with a failing configuration constructor the call's outcome
is the panic, not an error return. -/
theorem queryText_config_error_panics_witness :
    QueryText envConfigErr sampleProvider "hello" true [] "" [] ⟨""⟩ =
      ([], Outcome.panicked "boom") :=
  queryText_config_error_panics envConfigErr sampleProvider "hello" true [] "" [] ⟨""⟩
    "boom" rfl

/-- C9: two calls differing only in `history`, `prompt`, `knowledgeMessages`
and `agentInfo` are identical — `QueryText` never reads those parameters, so
they influence neither the effect trace nor the outcome. -/
theorem queryText_ignores_history_prompt_knowledge_agent (env : Env)
    (p : AIMLAPIModelProvider) (question : String) (w : Bool)
    (history1 history2 : List RawMessage) (prompt1 prompt2 : String)
    (km1 km2 : List RawMessage) (ai1 ai2 : AgentInfo) :
    QueryText env p question w history1 prompt1 km1 ai1 =
      QueryText env p question w history2 prompt2 km2 ai2 := rfl

/-- C5: a dry-run call (sentinel-prefixed question) returns the prompt-only
usage record (zero response tokens, total equal to the prompt count) when the
prompt fits the context window, and fails with the exceeds-context error when
it does not; either way the effect trace is empty. -/
theorem queryText_dryRun (env : Env) (p : AIMLAPIModelProvider) (question : String)
    (history : List RawMessage) (prompt : String) (km : List RawMessage) (ai : AgentInfo)
    (hcfg : env.defaultConfig p.secretKey p.siteName p.siteUrl = none)
    (hdry : startsWithSentinel question = true)
    (tc : Int) (htok : env.getTokenSize (resolveModel p.subType) question = Except.ok tc)
    (r : ModelResult)
    (hres : env.getDefaultModelResult (resolveModel p.subType) question "" = Except.ok r)
    (hzero : r.responseTokenCount = 0)
    (htot : r.totalTokenCount = r.promptTokenCount) :
    (r.promptTokenCount < env.getContextLength p.subType →
      QueryText env p question true history prompt km ai = ([], Outcome.ok r)) ∧
    (env.getContextLength p.subType ≤ r.promptTokenCount →
      QueryText env p question true history prompt km ai =
        ([], Outcome.error "exceeds max tokens")) := by
  constructor
  · intro hlt
    have hcond : env.getContextLength p.subType > r.totalTokenCount := by
      rw [htot]; exact hlt
    simp only [QueryText, hcfg, htok, hres, hdry, if_true]
    rw [if_pos hcond]
  · intro hge
    have hcond : ¬ env.getContextLength p.subType > r.totalTokenCount := by
      rw [htot]; omega
    simp only [QueryText, hcfg, htok, hres, hdry, if_true]
    rw [if_neg hcond]

/-- A deterministic environment for dry-run evaluation: token size is the
character count, the context window is 100 tokens, and the default result
builder counts question and answer characters. -/
def envDryRun : Env :=
  { getTokenSize := fun _ q => Except.ok (q.length : Int)
  , getContextLength := fun _ => 100
  , getDefaultModelResult := fun _ q a =>
      Except.ok
        { promptTokenCount := (q.length : Int)
        , responseTokenCount := (a.length : Int)
        , totalTokenCount := (q.length : Int) + (a.length : Int)
        , totalPrice := 0
        , currency := "" }
  , defaultConfig := fun _ _ _ => none
  , createStream := fun _ => Except.error "no stream" }

/-- C5 witness: the sentinel-prefixed question `"$CasibaseDryRun$hi"` (18
characters, context window 100) yields the prompt-only usage record with zero
response tokens and an empty effect trace. -/
theorem queryText_dryRun_witness :
    QueryText envDryRun sampleProvider "$CasibaseDryRun$hi" true [] "" [] ⟨""⟩ =
      ([], Outcome.ok
        { promptTokenCount := 18
        , responseTokenCount := 0
        , totalTokenCount := 18
        , totalPrice := 0
        , currency := "" }) :=
  (queryText_dryRun envDryRun sampleProvider "$CasibaseDryRun$hi" [] "" [] ⟨""⟩
    rfl (by decide) 18 rfl
    { promptTokenCount := 18
    , responseTokenCount := 0
    , totalTokenCount := 18
    , totalPrice := 0
    , currency := "" }
    rfl rfl rfl).1 (by decide)

/-- C4: in live mode the output bound is `contextLength - promptTokenCount`;
a negative bound fails immediately with the exceeds-context error (carrying
prompt token count, model name and context length) and an empty effect trace,
and otherwise the stream request is issued with that bound, which is `≥ 0`. -/
theorem queryText_live_maxTokens (env : Env) (p : AIMLAPIModelProvider)
    (question : String) (history : List RawMessage) (prompt : String)
    (km : List RawMessage) (ai : AgentInfo)
    (hcfg : env.defaultConfig p.secretKey p.siteName p.siteUrl = none)
    (hdry : startsWithSentinel question = false)
    (tc : Int) (htok : env.getTokenSize (resolveModel p.subType) question = Except.ok tc) :
    (env.getContextLength p.subType - tc < 0 →
      QueryText env p question true history prompt km ai =
        ([], Outcome.error
          (exceedsContextMsg tc (resolveModel p.subType) (env.getContextLength p.subType)))) ∧
    (0 ≤ env.getContextLength p.subType - tc →
      (QueryText env p question true history prompt km ai).1.head? =
        some (Effect.streamRequest (mkLiveRequest p.subType question p.temperature p.topP
          (env.getContextLength p.subType - tc))) ∧
      0 ≤ (mkLiveRequest p.subType question p.temperature p.topP
          (env.getContextLength p.subType - tc)).maxTokens) := by
  constructor
  · intro hneg
    simp only [QueryText, hcfg, htok, hdry, Bool.false_eq_true, if_false, if_true]
    rw [if_pos hneg]
  · intro hpos
    have hcond : ¬ env.getContextLength p.subType - tc < 0 := by omega
    refine ⟨?_, hpos⟩
    simp only [QueryText, hcfg, htok, hdry, Bool.false_eq_true, if_false, if_true]
    rw [if_neg hcond]
    cases hstream : env.createStream (mkLiveRequest p.subType question p.temperature p.topP
        (env.getContextLength p.subType - tc)) with
    | error e => simp
    | ok pr =>
      obtain ⟨frags, terminal⟩ := pr
      simp [finishStream_trace]

/-- A deterministic live environment: token size is the character count, the
context window is 100 tokens, and the transport delivers the fragments
`["\n", "Hi", "\nthere"]` followed by a normal end of stream. -/
def envLive : Env :=
  { getTokenSize := fun _ q => Except.ok (q.length : Int)
  , getContextLength := fun _ => 100
  , getDefaultModelResult := fun _ q a =>
      Except.ok
        { promptTokenCount := (q.length : Int)
        , responseTokenCount := (a.length : Int)
        , totalTokenCount := (q.length : Int) + (a.length : Int)
        , totalPrice := 0
        , currency := "" }
  , defaultConfig := fun _ _ _ => none
  , createStream := fun _ => Except.ok (["\n", "Hi", "\nthere"], none) }

/-- C4 witness: question `"hello"` (5 tokens) against a 100-token window gives
a live request bounded by 95 output tokens, a non-negative bound. -/
theorem queryText_live_maxTokens_witness :
    (QueryText envLive sampleProvider "hello" true [] "" [] ⟨""⟩).1.head? =
      some (Effect.streamRequest (mkLiveRequest "gpt-4o-mini" "hello" 1 1 95)) ∧
    0 ≤ (mkLiveRequest "gpt-4o-mini" "hello" 1 1 95).maxTokens :=
  (queryText_live_maxTokens envLive sampleProvider "hello" [] "" [] ⟨""⟩
    rfl rfl 5 rfl).2 (by decide)

/-- C7: a call that stops before live-request construction — missing flush
capability, failing token count, the dry-run path, or a negative remaining
budget — issues no stream request and writes nothing to the sink: its effect
trace is empty. -/
theorem queryText_early_exit_no_effects (env : Env) (p : AIMLAPIModelProvider)
    (question : String) (w : Bool) (history : List RawMessage) (prompt : String)
    (km : List RawMessage) (ai : AgentInfo)
    (h : w = false ∨
      (∃ e, env.getTokenSize (resolveModel p.subType) question = Except.error e) ∨
      startsWithSentinel question = true ∨
      (∀ tc, env.getTokenSize (resolveModel p.subType) question = Except.ok tc →
        env.getContextLength p.subType - tc < 0)) :
    (QueryText env p question w history prompt km ai).1 = [] := by
  cases hcfg : env.defaultConfig p.secretKey p.siteName p.siteUrl with
  | some e => simp [QueryText, hcfg]
  | none =>
    cases w with
    | false => simp [QueryText, hcfg]
    | true =>
      cases htok : env.getTokenSize (resolveModel p.subType) question with
      | error e => simp [QueryText, hcfg, htok]
      | ok tc =>
        by_cases hdry : startsWithSentinel question = true
        · cases hres : env.getDefaultModelResult (resolveModel p.subType) question "" with
          | error e2 => simp [QueryText, hcfg, htok, hdry, hres]
          | ok r =>
            simp only [QueryText, hcfg, htok, hdry, hres, if_true]
            split <;> simp
        · rcases h with hw | ⟨e, he⟩ | hdry2 | hfit
          · simp at hw
          · rw [htok] at he; simp at he
          · exact absurd hdry2 hdry
          · have hneg := hfit tc htok
            have hdryf : startsWithSentinel question = false := by
              cases hq : startsWithSentinel question
              · rfl
              · exact absurd hq hdry
            simp [QueryText, hcfg, htok, hdryf, hneg]

/-- C7 witness: a sink without flush capability yields an empty effect trace
(no stream request, no write). -/
theorem queryText_early_exit_no_effects_witness :
    (QueryText envLive sampleProvider "hello" false [] "" [] ⟨""⟩).1 = [] :=
  queryText_early_exit_no_effects envLive sampleProvider "hello" false [] "" [] ⟨""⟩
    (Or.inl rfl)

/-- C8: in a live call, the effect trace is the stream request followed, for
each forwarded fragment in stream order, by exactly one write of the bytes
`"event: message\ndata: " ++ fragment ++ "\n\n"` immediately followed by one
flush, and finally the stream close. -/
theorem queryText_event_framing (env : Env) (p : AIMLAPIModelProvider)
    (question : String) (history : List RawMessage) (prompt : String)
    (km : List RawMessage) (ai : AgentInfo)
    (hcfg : env.defaultConfig p.secretKey p.siteName p.siteUrl = none)
    (hdry : startsWithSentinel question = false)
    (tc : Int) (htok : env.getTokenSize (resolveModel p.subType) question = Except.ok tc)
    (hfit : ¬ env.getContextLength p.subType - tc < 0)
    (frags : List String) (terminal : Option String)
    (hstream : env.createStream (mkLiveRequest p.subType question p.temperature p.topP
        (env.getContextLength p.subType - tc)) = Except.ok (frags, terminal)) :
    (QueryText env p question true history prompt km ai).1 =
      Effect.streamRequest (mkLiveRequest p.subType question p.temperature p.topP
        (env.getContextLength p.subType - tc)) ::
      ((relay frags true).flatMap (fun d =>
        [Effect.write ("event: message\ndata: " ++ d ++ "\n\n"), Effect.flush]) ++
      [Effect.closeStream]) := by
  simp only [QueryText, hcfg, htok, hdry, Bool.false_eq_true, if_false, if_true]
  rw [if_neg hfit, hstream]
  simp [finishStream_trace, frameEvent]

/-- C8 witness: in the concrete live environment, the forwarded fragments
`["Hi", "\nthere"]` each produce one framed write followed by one flush,
between the stream request and the stream close. -/
theorem queryText_event_framing_witness :
    (QueryText envLive sampleProvider "hello" true [] "" [] ⟨""⟩).1 =
      Effect.streamRequest (mkLiveRequest "gpt-4o-mini" "hello" 1 1 95) ::
      ((relay ["\n", "Hi", "\nthere"] true).flatMap (fun d =>
        [Effect.write ("event: message\ndata: " ++ d ++ "\n\n"), Effect.flush]) ++
      [Effect.closeStream]) :=
  queryText_event_framing envLive sampleProvider "hello" [] "" [] ⟨""⟩
    rfl rfl 5 rfl (by decide) ["\n", "Hi", "\nthere"] none rfl

/-- An environment that distinguishes the empty model identifier from the
default one: context window 10 for `""`, 1000 for every other identifier. -/
def envEmptyModel : Env :=
  { getTokenSize := fun _ q => Except.ok (q.length : Int)
  , getContextLength := fun m => if m = "" then 10 else 1000
  , getDefaultModelResult := fun _ q a =>
      Except.ok
        { promptTokenCount := (q.length : Int)
        , responseTokenCount := (a.length : Int)
        , totalTokenCount := (q.length : Int) + (a.length : Int)
        , totalPrice := 0
        , currency := "" }
  , defaultConfig := fun _ _ _ => none
  , createStream := fun _ => Except.ok ([], none) }

/-- A provider whose configured model identifier is empty. -/
def emptyModelProvider : AIMLAPIModelProvider :=
  { subType := ""
  , secretKey := "k"
  , siteName := "Casibase"
  , siteUrl := "https://casibase.org"
  , temperature := 1
  , topP := 1 }

/-- C1 counterexample: with an empty configured identifier the effective model
resolves to `"openai/gpt-4o"` (context window 1000 here), yet a 40-token
question fails with the exceeds-context error built from the context length
looked up under `""` (10), and a fitting question produces a live request
whose model field is `""`, not the resolved name. -/
theorem queryText_resolved_model_use_cex :
    resolveModel "" = "openai/gpt-4o" ∧
    envEmptyModel.getContextLength (resolveModel "") = 1000 ∧
    QueryText envEmptyModel emptyModelProvider
        "0123456789012345678901234567890123456789" true [] "" [] ⟨""⟩ =
      ([], Outcome.error (exceedsContextMsg 40 "openai/gpt-4o" 10)) ∧
    (QueryText envEmptyModel emptyModelProvider "hi" true [] "" [] ⟨""⟩).1.head? =
      some (Effect.streamRequest (mkLiveRequest "" "hi" 1 1 8)) ∧
    "" ≠ "openai/gpt-4o" :=
  ⟨rfl, rfl, rfl, rfl, by decide⟩

/-- C1 (amended): when the configured model identifier is empty, the fixed
default `"openai/gpt-4o"` is substituted as the effective model and is the key
of the token-count lookup (and of the dry-run default result and the
exceeds-context message), but the context-length lookup, the model field of
the live chat request, and the accounting and price lookups all use the raw
empty configured identifier. -/
theorem queryText_empty_subType_key_use (env : Env) (p : AIMLAPIModelProvider)
    (hp : p.subType = "") (question : String) (history : List RawMessage)
    (prompt : String) (km : List RawMessage) (ai : AgentInfo)
    (hcfg : env.defaultConfig p.secretKey p.siteName p.siteUrl = none)
    (hdry : startsWithSentinel question = false)
    (tc : Int) (htok : env.getTokenSize "openai/gpt-4o" question = Except.ok tc)
    (hfit : ¬ env.getContextLength "" - tc < 0)
    (frags : List String)
    (hstream : env.createStream (mkLiveRequest "" question p.temperature p.topP
        (env.getContextLength "" - tc)) = Except.ok (frags, none))
    (r : ModelResult)
    (hres : env.getDefaultModelResult "" question (streamLoop frags true).2 =
      Except.ok r) :
    QueryText env p question true history prompt km ai =
      (Effect.streamRequest (mkLiveRequest "" question p.temperature p.topP
          (env.getContextLength "" - tc)) ::
        ((streamLoop frags true).1 ++ [Effect.closeStream]),
        Outcome.ok (calculatePrice "" r)) := by
  have h1 : resolveModel "" = "openai/gpt-4o" := rfl
  simp only [QueryText, hp, h1, hcfg, htok, hdry, Bool.false_eq_true, if_false, if_true]
  rw [if_neg hfit, hstream]
  simp only [finishStream]
  rw [hres]
  rfl

/-- C1 (amended) witness: a concrete empty-identifier call whose live request
carries model `""` and output bound 8, priced and accounted under `""`. -/
theorem queryText_empty_subType_key_use_witness :
    QueryText envEmptyModel emptyModelProvider "hi" true [] "" [] ⟨""⟩ =
      (Effect.streamRequest (mkLiveRequest "" "hi" 1 1 8) ::
        ((streamLoop [] true).1 ++ [Effect.closeStream]),
        Outcome.ok (calculatePrice ""
          { promptTokenCount := 2
          , responseTokenCount := 0
          , totalTokenCount := 2
          , totalPrice := 0
          , currency := "" })) :=
  queryText_empty_subType_key_use envEmptyModel emptyModelProvider rfl "hi" [] "" [] ⟨""⟩
    rfl rfl 2 rfl (by decide) [] rfl
    { promptTokenCount := 2
    , responseTokenCount := 0
    , totalTokenCount := 2
    , totalPrice := 0
    , currency := "" } rfl
